import Mathlib

/-!
Verification of the SKM Chambers form-intake backend (`server.js`).

The repository contains two near-duplicate variants of the server in one
file (separated by a document marker); we embed both.  Pure request/response
logic is translated directly from the source handlers; the behaviour of the
mongoose/MongoDB store layer (document construction with schema defaults,
cast errors, client-side validation, duplicate-key rejection, sorted reads)
is modelled explicitly.  Platform-dependent string operations
(`new Date(string)` parsing, ObjectId cast validity) are abstracted as
parameters of the model, so every theorem quantifies over them.
-/

namespace SkmChambers

/-- JS truthiness of an optional string-valued body field: `undefined`
(absent) and the empty string are falsy, every other string truthy.
This is the test performed by `if (!req.body.name || ...)`. -/
def truthy : Option String → Bool
  | none => false
  | some s => !s.isEmpty

/-- Platform-supplied operations the handlers depend on: JS `new Date(s)`
parsing (`none` for an Invalid Date) and ObjectId cast validity for
caller-supplied `_id` strings.  Timestamps are milliseconds as `Nat`. -/
structure JsEnv where
  parseDate : String → Option Nat
  validObjectId : String → Bool

/-- Request body for `POST /api/enquiry`: the fields of the enquiry schema
(plus `_id`), each optionally present.  Non-schema fields are dropped by
mongoose strict mode and are not modelled. -/
structure EnquiryBody where
  name : Option String := none
  email : Option String := none
  phone : Option String := none
  subject : Option String := none
  message : Option String := none
  type : Option String := none
  createdAt : Option String := none
  mongoId : Option String := none
deriving Repr, DecidableEq

/-- Request body for `POST /api/appointment`. -/
structure AppointmentBody where
  name : Option String := none
  email : Option String := none
  phone : Option String := none
  preferredDate : Option String := none
  preferredTime : Option String := none
  purpose : Option String := none
  type : Option String := none
  status : Option String := none
  createdAt : Option String := none
  mongoId : Option String := none
deriving Repr, DecidableEq

/-- A stored enquiry document (schema lines 69-77 / 374-382). -/
structure EnquiryRecord where
  id : String
  name : String
  email : String
  phone : Option String
  subject : Option String
  message : String
  type : String
  createdAt : Nat
deriving Repr, DecidableEq

/-- A stored appointment document (schema lines 79-89 / 384-394).
`preferredDate` and `createdAt` are date values (timestamps), not text. -/
structure AppointmentRecord where
  id : String
  name : String
  email : String
  phone : String
  preferredDate : Nat
  preferredTime : String
  purpose : String
  type : String
  status : String
  createdAt : Nat
deriving Repr, DecidableEq

/-- The record store: the two collections in insertion order, the mongoose
connection `readyState` (1 = connected) and the counter from which
server-side ObjectIds are generated. -/
structure Store where
  enquiries : List EnquiryRecord
  appointments : List AppointmentRecord
  readyState : Nat
  nextId : Nat
deriving Repr, DecidableEq

/-- Server-side ObjectId generation, modelled as an injective rendering of
the store's counter. -/
def genId (n : Nat) : String := toString n

/-- Outcome classification of a failed `save()`: mongoose client-side
`ValidationError` (cast or required-field failure) versus any other store
failure (connectivity, duplicate key).  The handlers branch on
`error.name === 'ValidationError'`. -/
inductive SaveError
  | validation (details : String)
  | server (details : String)
deriving Repr, DecidableEq

/-- Resolution of a document's `_id`: the caller-supplied value when it
casts to an ObjectId (a cast failure invalidates the document), otherwise
a fresh server-generated ObjectId. -/
def castId (env : JsEnv) (mongoId : Option String) (counter : Nat) : Except SaveError String :=
  match mongoId with
  | none => .ok (genId counter)
  | some s =>
    if env.validObjectId s then .ok s
    else .error (.validation "Cast to ObjectId failed")

/-- Resolution of a document's `createdAt`: the caller-supplied value cast
via `new Date` when present (an Invalid Date invalidates the document),
otherwise the schema default `Date.now`. -/
def castCreatedAt (env : JsEnv) (now : Nat) (createdAt : Option String) : Except SaveError Nat :=
  match createdAt with
  | none => .ok now
  | some s =>
    match env.parseDate s with
    | some t => .ok t
    | none => .error (.validation "Cast to Date failed")

/-- The `save()` of `new Enquiry(req.body)`.  Modelled mongoose semantics:
caller-supplied schema fields are cast and used, defaults fill only absent
fields (`type`, `createdAt`, `_id`); cast failures and required-field
failures reject with a `ValidationError` before any store round-trip;
with no established connection the write fails; a duplicate `_id` is
rejected by the unique index. -/
def saveEnquiry (env : JsEnv) (now : Nat) (st : Store) (body : EnquiryBody) :
    Except SaveError (EnquiryRecord × Store) :=
  match castId env body.mongoId st.nextId with
  | .error e => .error e
  | .ok id =>
    match castCreatedAt env now body.createdAt with
    | .error e => .error e
    | .ok createdAt =>
      if truthy body.name && truthy body.email && truthy body.message then
        if st.readyState = 1 then
          if (st.enquiries.map (·.id)).contains id then
            .error (.server "E11000 duplicate key error")
          else
            let r : EnquiryRecord :=
              { id := id, name := body.name.getD "", email := body.email.getD "",
                phone := body.phone, subject := body.subject,
                message := body.message.getD "",
                type := body.type.getD "general_enquiry", createdAt := createdAt }
            .ok (r, { st with enquiries := st.enquiries ++ [r],
                              nextId := if body.mongoId.isNone then st.nextId + 1 else st.nextId })
        else .error (.server "buffering timed out")
      else .error (.validation "Enquiry validation failed: required field missing")

/-- The `save()` of `new Appointment(appointmentData)`, where the handler
already replaced `preferredDate` by `new Date(req.body.preferredDate)`
(`pd`, `none` when that produced an Invalid Date, which mongoose rejects
as a cast failure). -/
def saveAppointment (env : JsEnv) (now : Nat) (st : Store) (body : AppointmentBody)
    (pd : Option Nat) : Except SaveError (AppointmentRecord × Store) :=
  match castId env body.mongoId st.nextId with
  | .error e => .error e
  | .ok id =>
    match castCreatedAt env now body.createdAt with
    | .error e => .error e
    | .ok createdAt =>
      match pd with
      | none => .error (.validation "Cast to Date failed at path preferredDate")
      | some preferredDate =>
        if truthy body.name && truthy body.email && truthy body.phone &&
            truthy body.preferredTime && truthy body.purpose then
          if st.readyState = 1 then
            if (st.appointments.map (·.id)).contains id then
              .error (.server "E11000 duplicate key error")
            else
              let r : AppointmentRecord :=
                { id := id, name := body.name.getD "", email := body.email.getD "",
                  phone := body.phone.getD "", preferredDate := preferredDate,
                  preferredTime := body.preferredTime.getD "",
                  purpose := body.purpose.getD "",
                  type := body.type.getD "appointment_request",
                  status := body.status.getD "pending", createdAt := createdAt }
              .ok (r, { st with appointments := st.appointments ++ [r],
                                nextId := if body.mongoId.isNone then st.nextId + 1 else st.nextId })
          else .error (.server "buffering timed out")
        else .error (.validation "Appointment validation failed: required field missing")

/-- JSON body of a create endpoint's response: `{success: true, message, id}`
on 201, `{error, details?}` on 400/500. -/
inductive CreateBody
  | created (message : String) (id : String)
  | failed (error : String) (details : Option String)
deriving Repr, DecidableEq

/-- Response of a create endpoint: HTTP status plus JSON body. -/
structure CreateResponse where
  status : Nat
  body : CreateBody
deriving Repr, DecidableEq

/-- Variant 1 `POST /api/enquiry` handler (lines 103-140). -/
def postEnquiry (env : JsEnv) (now : Nat) (st : Store) (body : EnquiryBody) :
    CreateResponse × Store :=
  if !truthy body.name || !truthy body.email || !truthy body.message then
    (⟨400, .failed "Missing required fields: name, email, and message are required" none⟩, st)
  else
    match saveEnquiry env now st body with
    | .ok (r, st') => (⟨201, .created "Enquiry submitted successfully" r.id⟩, st')
    | .error (.validation d) => (⟨400, .failed "Validation error" (some d)⟩, st)
    | .error (.server d) => (⟨500, .failed "Failed to submit enquiry" (some d)⟩, st)

/-- Variant 1 `POST /api/appointment` handler (lines 143-187). -/
def postAppointment (env : JsEnv) (now : Nat) (st : Store) (body : AppointmentBody) :
    CreateResponse × Store :=
  if !truthy body.name || !truthy body.email || !truthy body.phone ||
      !truthy body.preferredDate || !truthy body.preferredTime || !truthy body.purpose then
    (⟨400, .failed "Missing required fields" none⟩, st)
  else
    match saveAppointment env now st body (env.parseDate (body.preferredDate.getD "")) with
    | .ok (r, st') => (⟨201, .created "Appointment request submitted successfully" r.id⟩, st')
    | .error (.validation d) => (⟨400, .failed "Validation error" (some d)⟩, st)
    | .error (.server d) => (⟨500, .failed "Failed to submit appointment request" (some d)⟩, st)

/-- Stable insert for a descending sort keyed by `key`: the new element goes
before the first strictly smaller key, after existing equal keys. -/
def insertKeyDesc (key : α → Nat) (a : α) : List α → List α
  | [] => [a]
  | b :: l => if key b ≤ key a then a :: b :: l else b :: insertKeyDesc key a l

/-- Stable sort by `key` descending; models `.find().sort(\x7b createdAt: -1 \x7d)`. -/
def sortKeyDesc (key : α → Nat) : List α → List α
  | [] => []
  | b :: l => insertKeyDesc key b (sortKeyDesc key l)

/-- JSON body of a list endpoint's response: `{success: true, count, data}`
on 200, `{success: false, error}` on 500. -/
inductive ListBody (α : Type)
  | ok (count : Nat) (data : List α)
  | err (error : String)
deriving Repr, DecidableEq

/-- Response of a list endpoint. -/
structure ListResponse (α : Type) where
  status : Nat
  body : ListBody α
deriving Repr, DecidableEq

/-- Variant 1 `GET /api/enquiries` handler (lines 190-205). -/
def getEnquiries (st : Store) : ListResponse EnquiryRecord × Store :=
  if st.readyState = 1 then
    let l := sortKeyDesc (·.createdAt) st.enquiries
    (⟨200, .ok l.length l⟩, st)
  else (⟨500, .err "Failed to fetch enquiries"⟩, st)

/-- Variant 1 `GET /api/appointments` handler (lines 208-223). -/
def getAppointments (st : Store) : ListResponse AppointmentRecord × Store :=
  if st.readyState = 1 then
    let l := sortKeyDesc (·.createdAt) st.appointments
    (⟨200, .ok l.length l⟩, st)
  else (⟨500, .err "Failed to fetch appointments"⟩, st)

/-- The fields of the `/health` response the contract constrains: HTTP
status, the `status` field and the `database` field.  (Variant 1 adds
environment/uptime/memory fields; both variants agree on these three.) -/
structure HealthResponse where
  status : Nat
  statusField : String
  database : String
deriving Repr, DecidableEq

/-- Variant 1 `GET /health` handler (lines 226-248):
`mongoose.connection.readyState === 1 ? 'connected' : 'disconnected'`. -/
def healthHandler (st : Store) : HealthResponse :=
  ⟨200, "OK", if st.readyState = 1 then "connected" else "disconnected"⟩

/-- Variant 2 `GET /health` handler (lines 531-545), identical on the
constrained fields. -/
def healthHandlerV2 (st : Store) : HealthResponse :=
  ⟨200, "OK", if st.readyState = 1 then "connected" else "disconnected"⟩

/-- The store connection is established exactly in mongoose
`readyState` 1 (0 disconnected, 2 connecting, 3 disconnecting). -/
def connectionEstablished (st : Store) : Prop := st.readyState = 1

instance (st : Store) : Decidable (connectionEstablished st) := by
  unfold connectionEstablished; infer_instance

/-- HTTP methods the CORS configuration allows. -/
inductive Method
  | GET | POST | PUT | DELETE | OPTIONS
deriving Repr, DecidableEq

/-- Dispatch targets of the Express app, in registration order. -/
inductive RouteTarget
  | postEnquiry | postAppointment | getEnquiries | getAppointments
  | health | root | notFound
deriving Repr, DecidableEq

/-- The routing table: exact method + path match, with the trailing
`app.use` catch-all for everything unmatched.  Identical in both variants. -/
def route (m : Method) (path : String) : RouteTarget :=
  match m, path with
  | .POST, "/api/enquiry" => .postEnquiry
  | .POST, "/api/appointment" => .postAppointment
  | .GET, "/api/enquiries" => .getEnquiries
  | .GET, "/api/appointments" => .getAppointments
  | .GET, "/health" => .health
  | .GET, "/" => .root
  | _, _ => .notFound

/-- Response of the 404 catch-all: `{error, availableEndpoints}`. -/
structure NotFoundResponse where
  status : Nat
  error : String
  availableEndpoints : List (String × String)
deriving Repr, DecidableEq

/-- The fixed endpoint directory of the 404 body, identical in both
variants (lines 276-281 / 566-572). -/
def endpointDirectory : List (String × String) :=
  [("root", "GET /"), ("health", "GET /health"),
   ("submitEnquiry", "POST /api/enquiry"), ("submitAppointment", "POST /api/appointment")]

/-- Variant 1 404 handler (lines 273-283): ignores the request entirely. -/
def notFoundHandler (_m : Method) (_path : String) : NotFoundResponse :=
  ⟨404, "Endpoint not found", endpointDirectory⟩

/-- Variant 2 404 handler (lines 564-574), textually identical. -/
def notFoundHandlerV2 (_m : Method) (_path : String) : NotFoundResponse :=
  ⟨404, "Endpoint not found", endpointDirectory⟩

/-- Outcome of resolving the store connection string at startup. -/
inductive StartupResult
  | uri (s : String)
  | fatalExit (code : Nat)
deriving Repr, DecidableEq

/-- Variant 1 `getMongoURI` (lines 27-42): the environment variable when
truthy; otherwise the local default in non-production, else
`process.exit(1)`. -/
def getMongoURI (mongodbUri : Option String) (isProduction : Bool) : StartupResult :=
  if truthy mongodbUri then .uri (mongodbUri.getD "")
  else if !isProduction then .uri "mongodb://127.0.0.1:27017/skm-chambers"
  else .fatalExit 1

/-- Variant 2 connection-string resolution (line 363):
`process.env.MONGODB_URI || 'mongodb://localhost:27017/skm-chambers'`,
with no production check and no exit path. -/
def mongoURIV2 (mongodbUri : Option String) : StartupResult :=
  .uri (if truthy mongodbUri then mongodbUri.getD "" else "mongodb://localhost:27017/skm-chambers")

/-- Variant 2 `POST /api/enquiry` handler (lines 408-445); the schemas of
the two variants are identical, so the store layer is shared. -/
def postEnquiryV2 (env : JsEnv) (now : Nat) (st : Store) (body : EnquiryBody) :
    CreateResponse × Store :=
  if !truthy body.name || !truthy body.email || !truthy body.message then
    (⟨400, .failed "Missing required fields: name, email, and message are required" none⟩, st)
  else
    match saveEnquiry env now st body with
    | .ok (r, st') => (⟨201, .created "Enquiry submitted successfully" r.id⟩, st')
    | .error (.validation d) => (⟨400, .failed "Validation error" (some d)⟩, st)
    | .error (.server d) => (⟨500, .failed "Failed to submit enquiry" (some d)⟩, st)

/-- Variant 2 `POST /api/appointment` handler (lines 448-492). -/
def postAppointmentV2 (env : JsEnv) (now : Nat) (st : Store) (body : AppointmentBody) :
    CreateResponse × Store :=
  if !truthy body.name || !truthy body.email || !truthy body.phone ||
      !truthy body.preferredDate || !truthy body.preferredTime || !truthy body.purpose then
    (⟨400, .failed "Missing required fields" none⟩, st)
  else
    match saveAppointment env now st body (env.parseDate (body.preferredDate.getD "")) with
    | .ok (r, st') => (⟨201, .created "Appointment request submitted successfully" r.id⟩, st')
    | .error (.validation d) => (⟨400, .failed "Validation error" (some d)⟩, st)
    | .error (.server d) => (⟨500, .failed "Failed to submit appointment request" (some d)⟩, st)

/-- Variant 2 `GET /api/enquiries` handler (lines 495-510). -/
def getEnquiriesV2 (st : Store) : ListResponse EnquiryRecord × Store :=
  if st.readyState = 1 then
    let l := sortKeyDesc (·.createdAt) st.enquiries
    (⟨200, .ok l.length l⟩, st)
  else (⟨500, .err "Failed to fetch enquiries"⟩, st)

/-- Variant 2 `GET /api/appointments` handler (lines 513-528). -/
def getAppointmentsV2 (st : Store) : ListResponse AppointmentRecord × Store :=
  if st.readyState = 1 then
    let l := sortKeyDesc (·.createdAt) st.appointments
    (⟨200, .ok l.length l⟩, st)
  else (⟨500, .err "Failed to fetch appointments"⟩, st)

/-- A concrete platform environment for witnesses: a date parser that
recognises two fixed millisecond strings, and under which no string is a
castable ObjectId. -/
def sampleEnv : JsEnv :=
  ⟨fun s =>
    if s = "1700000000000" then some 1700000000000
    else if s = "1234" then some 1234
    else none,
   fun _ => false⟩

/-- A fresh connected store. -/
def emptyStore : Store := ⟨[], [], 1, 0⟩

/-- A fresh store with no established connection (`readyState` 0). -/
def downStore : Store := ⟨[], [], 0, 0⟩

/-- A valid enquiry submission carrying only documented form fields. -/
def sampleEnquiry : EnquiryBody :=
  { name := some "A", email := some "a@x.com", message := some "hi" }

/-- A valid appointment submission carrying only documented form fields. -/
def sampleAppointment : AppointmentBody :=
  { name := some "A", email := some "a@x.com", phone := some "1",
    preferredDate := some "1700000000000", preferredTime := some "10:00",
    purpose := some "consult" }

/-- A second valid enquiry submission. -/
def sampleEnquiryB : EnquiryBody :=
  { name := some "B", email := some "b@x.com", message := some "yo" }

/-- A valid enquiry submission that also carries a caller-supplied
`createdAt` in a form `new Date` cannot parse. -/
def sampleEnquiryBadCreatedAt : EnquiryBody :=
  { sampleEnquiry with createdAt := some "garbage" }

/-- A valid enquiry submission that also carries a parseable
caller-supplied `createdAt`. -/
def sampleEnquiryOwnCreatedAt : EnquiryBody :=
  { sampleEnquiry with createdAt := some "1234" }

/-- A valid appointment submission whose `preferredDate` does not parse. -/
def sampleAppointmentBadDate : AppointmentBody :=
  { sampleAppointment with preferredDate := some "not-a-date" }

/-- The store after submitting `sampleEnquiry` and then `sampleEnquiryB`,
both arriving in the same millisecond (server clock 5). -/
def stAB : Store :=
  (postEnquiry sampleEnv 5 (postEnquiry sampleEnv 5 emptyStore sampleEnquiry).2 sampleEnquiryB).2

/-- The record `sampleEnquiry` produces at server clock 5 on a fresh store. -/
def recA5 : EnquiryRecord :=
  ⟨"0", "A", "a@x.com", none, none, "hi", "general_enquiry", 5⟩

/-- The record `sampleEnquiryB` produces as the second insert at clock 5. -/
def recB5 : EnquiryRecord :=
  ⟨"1", "B", "b@x.com", none, none, "yo", "general_enquiry", 5⟩

/-- A stored enquiry with server timestamp 4, first insert. -/
def recA4 : EnquiryRecord :=
  ⟨"0", "A", "a@x.com", none, none, "hi", "general_enquiry", 4⟩

/-- A stored enquiry with server timestamp 9, second insert. -/
def recB9 : EnquiryRecord :=
  ⟨"1", "B", "b@x.com", none, none, "yo", "general_enquiry", 9⟩

/- ### Helper lemmas: the stable descending sort and ObjectId rendering -/

theorem insertKeyDesc_perm {α : Type} (key : α → Nat) (a : α) (l : List α) :
    List.Perm (insertKeyDesc key a l) (a :: l) := by
  induction l with
  | nil => simp [insertKeyDesc]
  | cons b t ih =>
    simp only [insertKeyDesc]
    split
    · exact List.Perm.refl _
    · exact List.Perm.trans (List.Perm.cons b ih) (List.Perm.swap a b t)

theorem sortKeyDesc_perm {α : Type} (key : α → Nat) (l : List α) :
    List.Perm (sortKeyDesc key l) l := by
  induction l with
  | nil => simp [sortKeyDesc]
  | cons b t ih =>
    simp only [sortKeyDesc]
    exact List.Perm.trans (insertKeyDesc_perm key b _) (List.Perm.cons b ih)

theorem insertKeyDesc_sorted {α : Type} (key : α → Nat) (a : α) (l : List α)
    (h : l.Pairwise (fun x y => key y ≤ key x)) :
    (insertKeyDesc key a l).Pairwise (fun x y => key y ≤ key x) := by
  induction l with
  | nil => simp [insertKeyDesc]
  | cons b t ih =>
    rcases List.pairwise_cons.mp h with ⟨hb, ht⟩
    simp only [insertKeyDesc]
    split
    case isTrue hba =>
      refine List.pairwise_cons.mpr ⟨?_, h⟩
      intro z hz
      rcases List.mem_cons.mp hz with rfl | hz'
      · exact hba
      · exact le_trans (hb z hz') hba
    case isFalse hba =>
      refine List.pairwise_cons.mpr ⟨?_, ih ht⟩
      intro z hz
      rcases List.mem_cons.mp ((insertKeyDesc_perm key a t).mem_iff.mp hz) with rfl | hz'
      · exact le_of_lt (lt_of_not_le hba)
      · exact hb z hz'

theorem sortKeyDesc_sorted {α : Type} (key : α → Nat) (l : List α) :
    (sortKeyDesc key l).Pairwise (fun x y => key y ≤ key x) := by
  induction l with
  | nil => simp [sortKeyDesc]
  | cons b t ih => exact insertKeyDesc_sorted key b _ ih

/-- In a list sorted descending by `key`, an element with strictly greater
key occurs strictly before one with smaller key. -/
theorem pairwise_desc_sublist {α : Type} (key : α → Nat) :
    ∀ (l : List α), l.Pairwise (fun x y => key y ≤ key x) →
    ∀ x y, x ∈ l → y ∈ l → key y < key x → [x, y].Sublist l := by
  intro l
  induction l with
  | nil => intro _ x y hx; simp at hx
  | cons a t ih =>
    intro h x y hx hy hlt
    rcases List.pairwise_cons.mp h with ⟨ha, ht⟩
    rcases List.mem_cons.mp hx with rfl | hx'
    · have hy' : y ∈ t := by
        rcases List.mem_cons.mp hy with rfl | h'
        · exact absurd hlt (lt_irrefl _)
        · exact h'
      exact List.Sublist.cons₂ x (List.singleton_sublist.mpr hy')
    · rcases List.mem_cons.mp hy with rfl | hy'
      · have := ha x hx'
        omega
      · exact List.Sublist.cons a (ih ht x y hx' hy' hlt)

theorem toDigitsCore_len_ge (b : Nat) : ∀ (f n : Nat) (ds : List Char),
    ds.length ≤ (Nat.toDigitsCore b f n ds).length := by
  intro f
  induction f with
  | zero => intro n ds; simp [Nat.toDigitsCore]
  | succ f ih =>
    intro n ds
    simp only [Nat.toDigitsCore]
    split
    · simp
    · exact le_trans (by simp) (ih _ _)

theorem toDigitsCore_len_succ (b f n : Nat) (ds : List Char) :
    ds.length + 1 ≤ (Nat.toDigitsCore b (f+1) n ds).length := by
  simp only [Nat.toDigitsCore]
  split
  · simp
  · exact le_trans (by simp) (toDigitsCore_len_ge b f _ _)

/-- A server-generated ObjectId string is never empty. -/
theorem genId_ne_empty (n : Nat) : genId n ≠ "" := by
  show Nat.repr n ≠ ""
  have h : 1 ≤ (Nat.toDigits 10 n).length := by
    have h2 := toDigitsCore_len_succ 10 n n []
    simpa [Nat.toDigits] using h2
  intro hcon
  have hd : Nat.toDigits 10 n = [] := by
    have h3 : (Nat.repr n).data = "".data := by rw [hcon]
    simpa [Nat.repr, List.asString] using h3
  rw [hd] at h
  simp at h

/- ### Inversion lemmas for the store layer -/

/-- Everything a successful enquiry `save()` guarantees about the stored
record and the store transition. -/
theorem saveEnquiry_ok_inv {env : JsEnv} {now : Nat} {st : Store} {body : EnquiryBody}
    {r : EnquiryRecord} {st' : Store}
    (h : saveEnquiry env now st body = .ok (r, st')) :
    st.readyState = 1 ∧
    st'.enquiries = st.enquiries ++ [r] ∧
    st'.appointments = st.appointments ∧
    st'.readyState = st.readyState ∧
    (st.enquiries.map (·.id)).contains r.id = false ∧
    castId env body.mongoId st.nextId = .ok r.id ∧
    castCreatedAt env now body.createdAt = .ok r.createdAt ∧
    r.name = body.name.getD "" ∧ r.email = body.email.getD "" ∧
    r.phone = body.phone ∧ r.subject = body.subject ∧
    r.message = body.message.getD "" ∧ r.type = body.type.getD "general_enquiry" := by
  unfold saveEnquiry at h
  split at h
  · simp at h
  next id hid =>
    split at h
    · simp at h
    next ca hca =>
      split at h
      · split at h
        · split at h
          · simp at h
          next hdup =>
            rw [Except.ok.injEq, Prod.mk.injEq] at h
            obtain ⟨hr, hst⟩ := h
            subst hr
            subst hst
            simp_all
        · simp at h
      · simp at h

/-- Everything a successful appointment `save()` guarantees. -/
theorem saveAppointment_ok_inv {env : JsEnv} {now : Nat} {st : Store} {body : AppointmentBody}
    {pd : Option Nat} {r : AppointmentRecord} {st' : Store}
    (h : saveAppointment env now st body pd = .ok (r, st')) :
    st.readyState = 1 ∧
    st'.appointments = st.appointments ++ [r] ∧
    st'.enquiries = st.enquiries ∧
    st'.readyState = st.readyState ∧
    (st.appointments.map (·.id)).contains r.id = false ∧
    castId env body.mongoId st.nextId = .ok r.id ∧
    castCreatedAt env now body.createdAt = .ok r.createdAt ∧
    pd = some r.preferredDate ∧
    r.name = body.name.getD "" ∧ r.email = body.email.getD "" ∧
    r.phone = body.phone.getD "" ∧ r.preferredTime = body.preferredTime.getD "" ∧
    r.purpose = body.purpose.getD "" ∧ r.type = body.type.getD "appointment_request" ∧
    r.status = body.status.getD "pending" := by
  unfold saveAppointment at h
  split at h
  · simp at h
  next id hid =>
    split at h
    · simp at h
    next ca hca =>
      split at h
      · simp at h
      next t hpd =>
        split at h
        · split at h
          · split at h
            · simp at h
            next hdup =>
              rw [Except.ok.injEq, Prod.mk.injEq] at h
              obtain ⟨hr, hst⟩ := h
              subst hr
              subst hst
              simp_all
          · simp at h
        · simp at h

/-- Computation of a successful enquiry `save()` for a submission that
leaves `_id` and `createdAt` to the server, on a connected store whose
next generated id is fresh. -/
theorem saveEnquiry_ok_of_valid {env : JsEnv} {now : Nat} {st : Store} {b : EnquiryBody}
    (hn : truthy b.name = true) (he : truthy b.email = true) (hm : truthy b.message = true)
    (hid : b.mongoId = none) (hca : b.createdAt = none)
    (hconn : st.readyState = 1)
    (hfresh : (st.enquiries.map (·.id)).contains (genId st.nextId) = false) :
    saveEnquiry env now st b =
      .ok ({ id := genId st.nextId, name := b.name.getD "", email := b.email.getD "",
             phone := b.phone, subject := b.subject, message := b.message.getD "",
             type := b.type.getD "general_enquiry", createdAt := now },
           { st with
              enquiries := st.enquiries ++
                [{ id := genId st.nextId, name := b.name.getD "", email := b.email.getD "",
                   phone := b.phone, subject := b.subject, message := b.message.getD "",
                   type := b.type.getD "general_enquiry", createdAt := now }],
              nextId := st.nextId + 1 }) := by
  unfold saveEnquiry castId castCreatedAt
  rw [hid, hca]
  simp [hn, he, hm, hconn, hfresh, hid]
  intro x hx hcon
  have h2 : genId st.nextId ∉ List.map (fun r => r.id) st.enquiries := by simp_all
  exact h2 (List.mem_map.mpr ⟨x, hx, hcon⟩)

/-- A failing `_id` cast is always classified as a validation error. -/
theorem castId_error_validation {env : JsEnv} {oid : Option String} {c : Nat} {e : SaveError}
    (h : castId env oid c = .error e) : ∃ d, e = SaveError.validation d := by
  unfold castId at h
  split at h
  · simp at h
  · split at h
    · simp at h
    · injection h with h2
      exact ⟨_, h2.symm⟩

/-- A failing `createdAt` cast is always classified as a validation error. -/
theorem castCreatedAt_error_validation {env : JsEnv} {now : Nat} {ca : Option String}
    {e : SaveError} (h : castCreatedAt env now ca = .error e) :
    ∃ d, e = SaveError.validation d := by
  unfold castCreatedAt at h
  split at h
  · simp at h
  · split at h
    · simp at h
    · injection h with h2
      exact ⟨_, h2.symm⟩

/-- Saving an appointment whose `preferredDate` failed to parse always
fails client-side with a validation error. -/
theorem saveAppointment_invalid_date (env : JsEnv) (now : Nat) (st : Store)
    (b : AppointmentBody) :
    ∃ d, saveAppointment env now st b none = .error (.validation d) := by
  unfold saveAppointment
  cases hci : castId env b.mongoId st.nextId with
  | error e =>
    obtain ⟨d, rfl⟩ := castId_error_validation hci
    exact ⟨d, rfl⟩
  | ok id =>
    cases hca : castCreatedAt env now b.createdAt with
    | error e =>
      obtain ⟨d, rfl⟩ := castCreatedAt_error_validation hca
      exact ⟨d, rfl⟩
    | ok t => exact ⟨_, rfl⟩

/-- Store effect of an enquiry create request: the store is unchanged, or
exactly one record with a collection-fresh id is appended. -/
theorem postEnquiry_effect (env : JsEnv) (now : Nat) (st : Store) (eb : EnquiryBody) :
    ((postEnquiry env now st eb).2.enquiries = st.enquiries ∧
      (postEnquiry env now st eb).2.appointments = st.appointments) ∨
    ∃ r, (postEnquiry env now st eb).2.enquiries = st.enquiries ++ [r] ∧
      (postEnquiry env now st eb).2.appointments = st.appointments ∧
      (st.enquiries.map (·.id)).contains r.id = false ∧
      castId env eb.mongoId st.nextId = .ok r.id ∧
      castCreatedAt env now eb.createdAt = .ok r.createdAt := by
  unfold postEnquiry
  split
  · exact Or.inl ⟨rfl, rfl⟩
  · rcases hs : saveEnquiry env now st eb with e | ⟨r, st'⟩
    · rcases e with d | d <;> simp [hs]
    · obtain ⟨-, henq, happ, -, hfresh, hcid, hcca, -⟩ := saveEnquiry_ok_inv hs
      exact Or.inr ⟨r, by simp [hs, henq], by simp [hs, happ], hfresh, hcid, hcca⟩

/-- Store effect of an appointment create request. -/
theorem postAppointment_effect (env : JsEnv) (now : Nat) (st : Store) (ab : AppointmentBody) :
    ((postAppointment env now st ab).2.appointments = st.appointments ∧
      (postAppointment env now st ab).2.enquiries = st.enquiries) ∨
    ∃ r, (postAppointment env now st ab).2.appointments = st.appointments ++ [r] ∧
      (postAppointment env now st ab).2.enquiries = st.enquiries ∧
      (st.appointments.map (·.id)).contains r.id = false ∧
      castId env ab.mongoId st.nextId = .ok r.id ∧
      castCreatedAt env now ab.createdAt = .ok r.createdAt := by
  unfold postAppointment
  split
  · exact Or.inl ⟨rfl, rfl⟩
  · rcases hs : saveAppointment env now st ab (env.parseDate (ab.preferredDate.getD "")) with
      e | ⟨r, st'⟩
    · rcases e with d | d <;> simp [hs]
    · obtain ⟨-, happ, henq, -, hfresh, hcid, hcca, -⟩ := saveAppointment_ok_inv hs
      exact Or.inr ⟨r, by simp [hs, happ], by simp [hs, henq], hfresh, hcid, hcca⟩

/-- A caller who supplies no `_id` gets the server-generated id. -/
theorem castId_none {env : JsEnv} {c : Nat} {i : String}
    (h : castId env none c = .ok i) : i = genId c := by
  unfold castId at h
  injection h with h2
  exact h2.symm

/-- A caller who supplies no `createdAt` gets the server clock. -/
theorem castCreatedAt_none {env : JsEnv} {now t : Nat}
    (h : castCreatedAt env now none = .ok t) : t = now := by
  unfold castCreatedAt at h
  injection h with h2
  exact h2.symm

/- ### The claims -/

/-- C1: an enquiry submission missing (or carrying an empty value for) any
of name/email/message, and an appointment submission missing any of its six
required fields, are answered 400 by the create handlers with the store
left untouched (the rejection happens before any store interaction). -/
theorem C1_missing_required_field_rejected (env : JsEnv) (now : Nat) (st : Store)
    (eb : EnquiryBody) (ab : AppointmentBody)
    (he : truthy eb.name = false ∨ truthy eb.email = false ∨ truthy eb.message = false)
    (ha : truthy ab.name = false ∨ truthy ab.email = false ∨ truthy ab.phone = false ∨
      truthy ab.preferredDate = false ∨ truthy ab.preferredTime = false ∨
      truthy ab.purpose = false) :
    (postEnquiry env now st eb).1.status = 400 ∧ (postEnquiry env now st eb).2 = st ∧
    (postAppointment env now st ab).1.status = 400 ∧ (postAppointment env now st ab).2 = st := by
  have he' : (!truthy eb.name || !truthy eb.email || !truthy eb.message) = true := by
    rcases he with h | h | h <;> simp [h]
  have ha' : (!truthy ab.name || !truthy ab.email || !truthy ab.phone ||
      !truthy ab.preferredDate || !truthy ab.preferredTime || !truthy ab.purpose) = true := by
    rcases ha with h | h | h | h | h | h <;> simp [h]
  refine ⟨?_, ?_, ?_, ?_⟩ <;> simp [postEnquiry, postAppointment, he', ha']

/-- C1 witness: the all-empty submissions are rejected on a fresh store. -/
theorem C1_witness :
    (postEnquiry sampleEnv 0 emptyStore {}).1.status = 400 ∧
    (postEnquiry sampleEnv 0 emptyStore {}).2 = emptyStore ∧
    (postAppointment sampleEnv 0 emptyStore {}).1.status = 400 ∧
    (postAppointment sampleEnv 0 emptyStore {}).2 = emptyStore :=
  C1_missing_required_field_rejected sampleEnv 0 emptyStore {} {} (Or.inl rfl) (Or.inl rfl)

/-- C6: `/health` answers 200 in every connectivity state, in both
variants, and its `database` field is `connected` exactly when the store
connection is established and `disconnected` otherwise. -/
theorem C6_health_reports_connectivity (st : Store) :
    (healthHandler st).status = 200 ∧ (healthHandlerV2 st).status = 200 ∧
    ((healthHandler st).database = "connected" ↔ connectionEstablished st) ∧
    ((healthHandler st).database = "disconnected" ↔ ¬ connectionEstablished st) ∧
    ((healthHandlerV2 st).database = "connected" ↔ connectionEstablished st) ∧
    ((healthHandlerV2 st).database = "disconnected" ↔ ¬ connectionEstablished st) := by
  unfold healthHandler healthHandlerV2 connectionEstablished
  by_cases h : st.readyState = 1 <;> simp [h]

/-- C7 counterexample: in variant 2 an absent connection string never
exits the process; the local default is substituted in every mode,
production included. -/
theorem C7_counterexample :
    mongoURIV2 none = StartupResult.uri "mongodb://localhost:27017/skm-chambers" ∧
    mongoURIV2 none ≠ StartupResult.fatalExit 1 := by
  exact ⟨rfl, by simp [mongoURIV2]⟩

/-- C7 (amended): in variant 1 an absent connection string is fatal in
production (`process.exit(1)`) and replaced by the local default in
non-production; variant 2 substitutes the local default in every mode and
startup proceeds with no exit path. -/
theorem C7_startup_uri_resolution :
    getMongoURI none true = StartupResult.fatalExit 1 ∧
    getMongoURI none false = StartupResult.uri "mongodb://127.0.0.1:27017/skm-chambers" ∧
    mongoURIV2 none = StartupResult.uri "mongodb://localhost:27017/skm-chambers" :=
  ⟨rfl, rfl, rfl⟩

/-- C8: every request matching no routing-table entry is answered 404 with
the same fixed endpoint directory, in both variants. -/
theorem C8_unmatched_route_404 (m : Method) (p : String)
    (_h : route m p = RouteTarget.notFound) :
    notFoundHandler m p = ⟨404, "Endpoint not found", endpointDirectory⟩ ∧
    notFoundHandlerV2 m p = ⟨404, "Endpoint not found", endpointDirectory⟩ :=
  ⟨rfl, rfl⟩

/-- C8 witness: `GET /nope` is unmatched and answered the fixed 404. -/
theorem C8_witness :
    route Method.GET "/nope" = RouteTarget.notFound ∧
    notFoundHandler Method.GET "/nope" = ⟨404, "Endpoint not found", endpointDirectory⟩ ∧
    notFoundHandlerV2 Method.GET "/nope" = ⟨404, "Endpoint not found", endpointDirectory⟩ :=
  ⟨by decide, (C8_unmatched_route_404 Method.GET "/nope" (by decide)).1,
   (C8_unmatched_route_404 Method.GET "/nope" (by decide)).2⟩

/-- C9: on the four API routes, the handlers of the two source variants
produce the same response (status and body) and the same store effect on
every input and store state. -/
theorem C9_variants_one_design (env : JsEnv) (now : Nat) (st : Store)
    (eb : EnquiryBody) (ab : AppointmentBody) :
    postEnquiry env now st eb = postEnquiryV2 env now st eb ∧
    postAppointment env now st ab = postAppointmentV2 env now st ab ∧
    getEnquiries st = getEnquiriesV2 st ∧
    getAppointments st = getAppointmentsV2 st :=
  ⟨rfl, rfl, rfl, rfl⟩

/-- C10: every 200 list response carries a `count` equal to the length of
its `data` array, in both variants. -/
theorem C10_count_eq_data_length (st : Store) :
    ((getEnquiries st).1.status = 200 →
      ∃ d, (getEnquiries st).1.body = ListBody.ok d.length d) ∧
    ((getAppointments st).1.status = 200 →
      ∃ d, (getAppointments st).1.body = ListBody.ok d.length d) ∧
    ((getEnquiriesV2 st).1.status = 200 →
      ∃ d, (getEnquiriesV2 st).1.body = ListBody.ok d.length d) ∧
    ((getAppointmentsV2 st).1.status = 200 →
      ∃ d, (getAppointmentsV2 st).1.body = ListBody.ok d.length d) := by
  by_cases h : st.readyState = 1
  · refine ⟨fun _ => ⟨sortKeyDesc (·.createdAt) st.enquiries, ?_⟩,
      fun _ => ⟨sortKeyDesc (·.createdAt) st.appointments, ?_⟩,
      fun _ => ⟨sortKeyDesc (·.createdAt) st.enquiries, ?_⟩,
      fun _ => ⟨sortKeyDesc (·.createdAt) st.appointments, ?_⟩⟩ <;>
    simp [getEnquiries, getAppointments, getEnquiriesV2, getAppointmentsV2, h]
  · refine ⟨?_, ?_, ?_, ?_⟩ <;>
    simp [getEnquiries, getAppointments, getEnquiriesV2, getAppointmentsV2, h]

/-- C4: for a non-empty appointment submission whose `preferredDate` text
does not parse as a date, the create fails and surfaces as a 400
validation error with the store untouched; and whenever a create succeeds
(201), the stored record's `preferredDate` is the parsed date value, not
the submitted text. -/
theorem C4_preferredDate_parsed (env : JsEnv) (now : Nat) (st : Store) (b : AppointmentBody)
    (hn : truthy b.name = true) (he : truthy b.email = true) (hp : truthy b.phone = true)
    (hd : truthy b.preferredDate = true) (ht : truthy b.preferredTime = true)
    (hu : truthy b.purpose = true) :
    (env.parseDate (b.preferredDate.getD "") = none →
      (postAppointment env now st b).1.status = 400 ∧
      (postAppointment env now st b).2 = st ∧
      ∃ d, (postAppointment env now st b).1.body = CreateBody.failed "Validation error" (some d)) ∧
    ((postAppointment env now st b).1.status = 201 →
      ∃ r, (postAppointment env now st b).2.appointments = st.appointments ++ [r] ∧
        env.parseDate (b.preferredDate.getD "") = some r.preferredDate) := by
  have hreq : (!truthy b.name || !truthy b.email || !truthy b.phone ||
      !truthy b.preferredDate || !truthy b.preferredTime || !truthy b.purpose) = false := by
    simp [hn, he, hp, hd, ht, hu]
  constructor
  · intro hparse
    obtain ⟨d, hsd⟩ := saveAppointment_invalid_date env now st b
    simp [postAppointment, hreq, hparse, hsd]
  · intro h201
    rcases hs : saveAppointment env now st b (env.parseDate (b.preferredDate.getD "")) with e | ⟨r, st'⟩
    · exfalso
      rcases e with d | d <;> simp [postAppointment, hreq, hs] at h201
    · obtain ⟨-, happ, -, -, -, -, -, hpd, -⟩ := saveAppointment_ok_inv hs
      refine ⟨r, ?_, hpd⟩
      simp [postAppointment, hreq, hs, happ]

/-- C4 witness: the unparseable-date submission gets 400 and the parseable
one stores the parsed date value. -/
theorem C4_witness :
    ((postAppointment sampleEnv 5 emptyStore sampleAppointmentBadDate).1.status = 400 ∧
      (postAppointment sampleEnv 5 emptyStore sampleAppointmentBadDate).2 = emptyStore ∧
      ∃ d, (postAppointment sampleEnv 5 emptyStore sampleAppointmentBadDate).1.body =
        CreateBody.failed "Validation error" (some d)) ∧
    (∃ r, (postAppointment sampleEnv 5 emptyStore sampleAppointment).2.appointments =
        emptyStore.appointments ++ [r] ∧
      sampleEnv.parseDate (sampleAppointment.preferredDate.getD "") = some r.preferredDate) :=
  ⟨(C4_preferredDate_parsed sampleEnv 5 emptyStore sampleAppointmentBadDate
      rfl rfl rfl rfl rfl rfl).1 (by decide),
   (C4_preferredDate_parsed sampleEnv 5 emptyStore sampleAppointment
      rfl rfl rfl rfl rfl rfl).2 (by decide)⟩

/-- C2 counterexample: a submission with non-empty name, email and message
on a fresh connected store is nevertheless answered 400, not 201, because
its caller-supplied `createdAt` fails the store's Date cast; nothing is
persisted. -/
theorem C2_counterexample :
    truthy sampleEnquiryBadCreatedAt.name = true ∧
    truthy sampleEnquiryBadCreatedAt.email = true ∧
    truthy sampleEnquiryBadCreatedAt.message = true ∧
    emptyStore.readyState = 1 ∧
    (postEnquiry sampleEnv 5 emptyStore sampleEnquiryBadCreatedAt).1.status = 400 ∧
    (postEnquiry sampleEnv 5 emptyStore sampleEnquiryBadCreatedAt).2 = emptyStore := by
  decide

/-- C2 (amended): a valid enquiry submission (name, email, message present
and non-empty) that leaves `_id` and `createdAt` to the server — in
particular one carrying only the documented form fields — on a reachable
store whose next generated id is fresh, is answered 201 with
`{success: true, message: "Enquiry submitted successfully", id}`, the id
non-empty, and a subsequent `GET /api/enquiries` answers 200 with a
record whose fields match the submission. -/
theorem C2_valid_enquiry_created (env : JsEnv) (now : Nat) (st : Store) (b : EnquiryBody)
    (hn : truthy b.name = true) (he : truthy b.email = true) (hm : truthy b.message = true)
    (hid : b.mongoId = none) (hca : b.createdAt = none)
    (hconn : st.readyState = 1)
    (hfresh : (st.enquiries.map (·.id)).contains (genId st.nextId) = false) :
    ∃ r st',
      postEnquiry env now st b = (⟨201, .created "Enquiry submitted successfully" r.id⟩, st') ∧
      r.id ≠ "" ∧
      r.name = b.name.getD "" ∧ r.email = b.email.getD "" ∧ r.message = b.message.getD "" ∧
      r.phone = b.phone ∧ r.subject = b.subject ∧ r.type = b.type.getD "general_enquiry" ∧
      r.createdAt = now ∧
      (getEnquiries st').1.status = 200 ∧
      ∃ c d, (getEnquiries st').1.body = ListBody.ok c d ∧ r ∈ d := by
  have hreq : (!truthy b.name || !truthy b.email || !truthy b.message) = false := by
    simp [hn, he, hm]
  have hsave := @saveEnquiry_ok_of_valid env now st b hn he hm hid hca hconn hfresh
  refine ⟨{ id := genId st.nextId, name := b.name.getD "", email := b.email.getD "",
            phone := b.phone, subject := b.subject, message := b.message.getD "",
            type := b.type.getD "general_enquiry", createdAt := now },
          { st with
             enquiries := st.enquiries ++
               [{ id := genId st.nextId, name := b.name.getD "", email := b.email.getD "",
                  phone := b.phone, subject := b.subject, message := b.message.getD "",
                  type := b.type.getD "general_enquiry", createdAt := now }],
             nextId := st.nextId + 1 },
          ?_, genId_ne_empty st.nextId, rfl, rfl, rfl, rfl, rfl, rfl, rfl, ?_,
          (sortKeyDesc (·.createdAt) (st.enquiries ++
            [{ id := genId st.nextId, name := b.name.getD "", email := b.email.getD "",
               phone := b.phone, subject := b.subject, message := b.message.getD "",
               type := b.type.getD "general_enquiry", createdAt := now }])).length,
          sortKeyDesc (·.createdAt) (st.enquiries ++
            [{ id := genId st.nextId, name := b.name.getD "", email := b.email.getD "",
               phone := b.phone, subject := b.subject, message := b.message.getD "",
               type := b.type.getD "general_enquiry", createdAt := now }]),
          ?_, ?_⟩
  · simp [postEnquiry, hreq, hsave]
  · simp [getEnquiries, hconn]
  · simp [getEnquiries, hconn]
  · refine (sortKeyDesc_perm (fun r : EnquiryRecord => r.createdAt) _).mem_iff.mpr ?_
    simp

/-- C2 witness: the documented example submission on a fresh store. -/
theorem C2_witness :
    ∃ r st',
      postEnquiry sampleEnv 5 emptyStore sampleEnquiry =
        (⟨201, .created "Enquiry submitted successfully" r.id⟩, st') ∧
      r.id ≠ "" ∧
      r.name = sampleEnquiry.name.getD "" ∧ r.email = sampleEnquiry.email.getD "" ∧
      r.message = sampleEnquiry.message.getD "" ∧
      r.phone = sampleEnquiry.phone ∧ r.subject = sampleEnquiry.subject ∧
      r.type = sampleEnquiry.type.getD "general_enquiry" ∧
      r.createdAt = 5 ∧
      (getEnquiries st').1.status = 200 ∧
      ∃ c d, (getEnquiries st').1.body = ListBody.ok c d ∧ r ∈ d :=
  C2_valid_enquiry_created sampleEnv 5 emptyStore sampleEnquiry rfl rfl rfl rfl rfl rfl rfl

/-- C3 counterexample: `sampleEnquiry` (A) is inserted before
`sampleEnquiryB` (B) but both arrive in the same server millisecond, and
the listing returns A before B — so an earlier insert is not always
listed after a later one. -/
theorem C3_counterexample :
    stAB.enquiries = [recA5, recB5] ∧
    (getEnquiries stAB).1.status = 200 ∧
    (getEnquiries stAB).1.body = ListBody.ok 2 [recA5, recB5] := by
  decide

/-- C3 (amended): every 200 list response is sorted by `createdAt`
descending and is a permutation of the stored records; any record with
strictly greater `createdAt` is placed before any with smaller
`createdAt` — in particular, a record inserted before another with a
strictly smaller server timestamp is listed after it.  Records sharing a
`createdAt` keep insertion order, so only strict timestamp order is
guaranteed. -/
theorem C3_list_sorted_desc (st : Store) :
    (∀ c d, (getEnquiries st).1.body = ListBody.ok c d →
      d.Pairwise (fun x y => y.createdAt ≤ x.createdAt) ∧
      List.Perm d st.enquiries ∧
      ∀ x y, x ∈ d → y ∈ d → y.createdAt < x.createdAt → [x, y].Sublist d) ∧
    (∀ c d, (getAppointments st).1.body = ListBody.ok c d →
      d.Pairwise (fun x y => y.createdAt ≤ x.createdAt) ∧
      List.Perm d st.appointments ∧
      ∀ x y, x ∈ d → y ∈ d → y.createdAt < x.createdAt → [x, y].Sublist d) := by
  constructor
  · intro c d hbody
    have hd : d = sortKeyDesc (fun r : EnquiryRecord => r.createdAt) st.enquiries := by
      by_cases h : st.readyState = 1
      · simp [getEnquiries, h] at hbody
        exact hbody.2.symm
      · simp [getEnquiries, h] at hbody
    subst hd
    refine ⟨sortKeyDesc_sorted _ _, sortKeyDesc_perm _ _, ?_⟩
    exact pairwise_desc_sublist _ _ (sortKeyDesc_sorted _ _)
  · intro c d hbody
    have hd : d = sortKeyDesc (fun r : AppointmentRecord => r.createdAt) st.appointments := by
      by_cases h : st.readyState = 1
      · simp [getAppointments, h] at hbody
        exact hbody.2.symm
      · simp [getAppointments, h] at hbody
    subst hd
    refine ⟨sortKeyDesc_sorted _ _, sortKeyDesc_perm _ _, ?_⟩
    exact pairwise_desc_sublist _ _ (sortKeyDesc_sorted _ _)

/-- C3 witness: with A inserted first at timestamp 4 and B second at
timestamp 9, the listing is `[B, A]`: sorted descending, a permutation of
the store, and B strictly before A. -/
theorem C3_witness :
    ([recB9, recA4] : List EnquiryRecord).Pairwise (fun x y => y.createdAt ≤ x.createdAt) ∧
    List.Perm [recB9, recA4] [recA4, recB9] ∧
    [recB9, recA4].Sublist [recB9, recA4] := by
  have h := (C3_list_sorted_desc ⟨[recA4, recB9], [], 1, 2⟩).1 2 [recB9, recA4] (by decide)
  exact ⟨h.1, h.2.1, h.2.2 recB9 recA4 (by decide) (by decide) (by decide)⟩

/-- C5 counterexample: the stored `createdAt` is not server-assigned
independently of the caller's body: two submissions differing only in a
caller-supplied `createdAt` field, handled at the same server clock 5 on
the same fresh store, persist different `createdAt` values — the
caller-supplied 1234 wins over the server clock. -/
theorem C5_counterexample :
    (postEnquiry sampleEnv 5 emptyStore sampleEnquiryOwnCreatedAt).1.status = 201 ∧
    (postEnquiry sampleEnv 5 emptyStore sampleEnquiryOwnCreatedAt).2.enquiries =
      [⟨"0", "A", "a@x.com", none, none, "hi", "general_enquiry", 1234⟩] ∧
    (postEnquiry sampleEnv 5 emptyStore sampleEnquiry).2.enquiries =
      [⟨"0", "A", "a@x.com", none, none, "hi", "general_enquiry", 5⟩] := by
  decide

/-- C5 (amended): the store is append-only — a create request either
leaves a collection unchanged or appends exactly one record, never
altering existing records' `id` or `createdAt`, and never touches the
other collection; a fresh record's id is new to its collection, so
distinctness of ids is an invariant of both handlers; and `id` and
`createdAt` are server-assigned (`genId` counter, server clock) whenever
the caller does not supply `_id`/`createdAt` body fields — caller-supplied
values are used instead of the defaults. -/
theorem C5_id_createdAt_invariants (env : JsEnv) (now : Nat) (st : Store)
    (eb : EnquiryBody) (ab : AppointmentBody) :
    ((postEnquiry env now st eb).2.enquiries = st.enquiries ∨
      ∃ r, (postEnquiry env now st eb).2.enquiries = st.enquiries ++ [r] ∧
        (st.enquiries.map (·.id)).contains r.id = false ∧
        (eb.mongoId = none → r.id = genId st.nextId) ∧
        (eb.createdAt = none → r.createdAt = now)) ∧
    (postEnquiry env now st eb).2.appointments = st.appointments ∧
    ((postAppointment env now st ab).2.appointments = st.appointments ∨
      ∃ r, (postAppointment env now st ab).2.appointments = st.appointments ++ [r] ∧
        (st.appointments.map (·.id)).contains r.id = false ∧
        (ab.mongoId = none → r.id = genId st.nextId) ∧
        (ab.createdAt = none → r.createdAt = now)) ∧
    (postAppointment env now st ab).2.enquiries = st.enquiries ∧
    ((st.enquiries.map (·.id)).Nodup →
      ((postEnquiry env now st eb).2.enquiries.map (·.id)).Nodup) ∧
    ((st.appointments.map (·.id)).Nodup →
      ((postAppointment env now st ab).2.appointments.map (·.id)).Nodup) := by
  rcases postEnquiry_effect env now st eb with ⟨he1, he2⟩ | ⟨r, he1, he2, hef, heid, heca⟩ <;>
    rcases postAppointment_effect env now st ab with ⟨ha1, ha2⟩ | ⟨s, ha1, ha2, haf, haid, haca⟩
  · exact ⟨Or.inl he1, he2, Or.inl ha1, ha2, fun h => he1 ▸ h, fun h => ha1 ▸ h⟩
  · refine ⟨Or.inl he1, he2,
      Or.inr ⟨s, ha1, haf,
        fun hn => castId_none (hn ▸ haid), fun hn => castCreatedAt_none (hn ▸ haca)⟩,
      ha2, fun h => he1 ▸ h, fun h => ?_⟩
    have hnotin : s.id ∉ st.appointments.map (·.id) := by simp_all
    rw [ha1]
    simp only [List.map_append, List.map_cons, List.map_nil]
    simp [List.nodup_append, h, hnotin]
  · refine ⟨Or.inr ⟨r, he1, hef,
      fun hn => castId_none (hn ▸ heid), fun hn => castCreatedAt_none (hn ▸ heca)⟩,
      he2, Or.inl ha1, ha2, fun h => ?_, fun h => ha1 ▸ h⟩
    have hnotin : r.id ∉ st.enquiries.map (·.id) := by simp_all
    rw [he1]
    simp only [List.map_append, List.map_cons, List.map_nil]
    simp [List.nodup_append, h, hnotin]
  · refine ⟨Or.inr ⟨r, he1, hef,
      fun hn => castId_none (hn ▸ heid), fun hn => castCreatedAt_none (hn ▸ heca)⟩,
      he2,
      Or.inr ⟨s, ha1, haf,
        fun hn => castId_none (hn ▸ haid), fun hn => castCreatedAt_none (hn ▸ haca)⟩,
      ha2, fun h => ?_, fun h => ?_⟩
    · have hnotin : r.id ∉ st.enquiries.map (·.id) := by simp_all
      rw [he1]
      simp only [List.map_append, List.map_cons, List.map_nil]
      simp [List.nodup_append, h, hnotin]
    · have hnotin : s.id ∉ st.appointments.map (·.id) := by simp_all
      rw [ha1]
      simp only [List.map_append, List.map_cons, List.map_nil]
      simp [List.nodup_append, h, hnotin]

/-- C5 witness: on a fresh store with the documented submissions the
enquiry create appends a record with the server-assigned id and
timestamp, leaves appointments untouched, and preserves id-distinctness;
symmetrically for the appointment create. -/
theorem C5_witness :
    (postEnquiry sampleEnv 5 emptyStore sampleEnquiry).2.appointments =
      emptyStore.appointments ∧
    (postAppointment sampleEnv 5 emptyStore sampleAppointment).2.enquiries =
      emptyStore.enquiries ∧
    ((postEnquiry sampleEnv 5 emptyStore sampleEnquiry).2.enquiries.map (·.id)).Nodup ∧
    ((postAppointment sampleEnv 5 emptyStore sampleAppointment).2.appointments.map
      (·.id)).Nodup := by
  have h := C5_id_createdAt_invariants sampleEnv 5 emptyStore sampleEnquiry sampleAppointment
  exact ⟨h.2.1, h.2.2.2.1, h.2.2.2.2.1 (by decide), h.2.2.2.2.2 (by decide)⟩

/-- C10 witness: the empty connected store lists `count` 0 with empty data. -/
theorem C10_witness :
    ∃ d, (getEnquiries emptyStore).1.body = ListBody.ok d.length d :=
  (C10_count_eq_data_length emptyStore).1 rfl

end SkmChambers
